import Mathlib

/-!
Verification of the FloodWatch backend (flood-monitoring service).

This file gives a shallow embedding, over exact rational arithmetic, of the
pure computational core of the backend:

* `app/config/region_config.py` — rainfall alert-threshold classification;
* `app/services/flood_threat_cache.py` — the composite flood-threat engine
  (per-district scores, national aggregate, snapshot) and its cache;
* `app/services/weather_cache.py` — the weather cache state machine
  (TTL validity, freeze mode, refresh);
* `app/services/river_provider_factory.py` — provider dispatch by bounding box;
* `app/services/traffic_incidents.py` — TomTom severity mapping.

Python floats are modelled as `ℚ` (every constant in the code has an exact
decimal representation), datetimes as `ℚ` minutes, dicts with known fields as
structures, dict `.get` with defaults as total fields or `Option`, and
exceptions as `Except`.  Descriptive string fields that no computation
inspects (the `factors` lists and log messages) are omitted.
-/

namespace FloodWatch

/-! ## Region alert thresholds (`region_config.py`, `RegionConfig.get_alert_threshold`) -/

/-- Alert levels of `region_config.py` (strings `green`/`yellow`/`orange`/`red`). -/
inductive AlertLevel
  | green
  | yellow
  | orange
  | red
  deriving DecidableEq

/-- One entry of a region's `alertThresholds` dict: the keys `minRain` and
`maxRain` may each be absent (`dict.get` defaults are applied at use sites). -/
structure Band where
  minRain : Option ℚ
  maxRain : Option ℚ

/-- Python `thresholds.get(level, {})` followed by `threshold.get('minRain', 0)`. -/
def bandMinRain (b : Option Band) : ℚ :=
  ((b.getD ⟨none, none⟩).minRain).getD 0

/-- Python `thresholds.get(level, {})` followed by `threshold.get('maxRain', 999)`. -/
def bandMaxRain (b : Option Band) : ℚ :=
  ((b.getD ⟨none, none⟩).maxRain).getD 999

/-- The test `min_rain <= rainfall_mm <= max_rain` of `get_alert_threshold`. -/
def band_matches (th : AlertLevel → Option Band) (l : AlertLevel) (r : ℚ) : Bool :=
  decide (bandMinRain (th l) ≤ r) && decide (r ≤ bandMaxRain (th l))

/-- The `for level in ['red', 'orange', 'yellow', 'green']` loop body of
`get_alert_threshold`: return the first level whose band matches. -/
def scan_levels (th : AlertLevel → Option Band) : List AlertLevel → ℚ → AlertLevel
  | [], _ => .green
  | l :: ls, r => if band_matches th l r then l else scan_levels th ls r

/-- Severity order used by the scan in `get_alert_threshold`. -/
def severity_order : List AlertLevel := [.red, .orange, .yellow, .green]

/-- RegionConfig.get_alert_threshold: scan bands in severity order, defaulting
to `green` when no band matches.  The region's `alertThresholds` dict is the
parameter `th`. -/
def get_alert_threshold (th : AlertLevel → Option Band) (rainfall_mm : ℚ) : AlertLevel :=
  scan_levels th severity_order rainfall_mm

/-- The specification's reading of the same operation: the first level in
severity order whose band matches wins, otherwise `green`. -/
def first_matching_level (th : AlertLevel → Option Band) (r : ℚ) : AlertLevel :=
  (severity_order.find? (fun l => band_matches th l r)).getD .green

/-- The threshold bands named by the end-to-end scenario: green (0,25),
yellow (25,50), orange (50,100), red (100,∞).  The unbounded red band has no
`maxRain` key, so the code's `999` default applies. -/
def standard_thresholds : AlertLevel → Option Band
  | .green => some ⟨some 0, some 25⟩
  | .yellow => some ⟨some 25, some 50⟩
  | .orange => some ⟨some 50, some 100⟩
  | .red => some ⟨some 100, none⟩

/-! ## TomTom traffic severity (`traffic_incidents.py`) -/

/-- Python `get_severity` of `traffic_incidents.py`: convert a TomTom
`magnitudeOfDelay` to a severity string. -/
def get_severity (magnitude : ℤ) : String :=
  if magnitude ≥ 4 then "critical"
  else if magnitude ≥ 3 then "major"
  else if magnitude ≥ 2 then "moderate"
  else if magnitude ≥ 1 then "minor"
  else "unknown"

/-- The severity assigned to one fetched incident in
`TrafficIncidentsService.fetch_incidents`:
`magnitude = props.get("magnitudeOfDelay", 0); severity = get_severity(magnitude)`. -/
def incident_severity (magnitudeOfDelay : Option ℤ) : String :=
  get_severity (magnitudeOfDelay.getD 0)

/-! ## Provider factory (`river_provider_factory.py`) -/

/-- Geographic bounding box (`river_provider.py`, `BoundingBox`). -/
structure BoundingBox where
  min_lat : ℚ
  max_lat : ℚ
  min_lon : ℚ
  max_lon : ℚ

/-- RiverProviderFactory._bounds_overlap: two boxes overlap iff none of the
four separating conditions holds. -/
def bounds_overlap (b1 b2 : BoundingBox) : Bool :=
  !(decide (b1.max_lat < b2.min_lat)
    || decide (b1.min_lat > b2.max_lat)
    || decide (b1.max_lon < b2.min_lon)
    || decide (b1.min_lon > b2.max_lon))

/-- The factory's `_region_providers` map (`region id → provider ids`). -/
def region_providers (region_id : String) : List String :=
  if region_id = "srilanka" then ["srilanka_navy"]
  else if region_id = "south_india" then
    ["india_cwc", "tamil_nadu", "karnataka", "andhra_pradesh", "telangana"]
  else []

/-- Python dict subscript `d[k]` on a string-keyed dict of numbers: `KeyError`
when the key is absent. -/
def dict_subscript (d : List (String × ℚ)) (k : String) : Except String ℚ :=
  match d.find? (fun p => p.1 == k) with
  | some p => .ok p.2
  | none => .error ("KeyError: " ++ k)

/-- The loop of `RiverProviderFactory.get_providers_for_bounds` over
`["srilanka", "south_india"]`: skip a region whose bounds dict is empty,
otherwise subscript the four snake_case keys, build the region box, and when
it overlaps the query append that region's providers. -/
def providers_for_bounds_loop (get_bounds : String → List (String × ℚ))
    (bounds : BoundingBox) : List String → Except String (List String)
  | [] => .ok []
  | rid :: rest =>
    let rb := get_bounds rid
    if rb.isEmpty then providers_for_bounds_loop get_bounds bounds rest
    else do
      let lat0 ← dict_subscript rb "min_lat"
      let lat1 ← dict_subscript rb "max_lat"
      let lon0 ← dict_subscript rb "min_lon"
      let lon1 ← dict_subscript rb "max_lon"
      let region_bbox : BoundingBox := ⟨lat0, lat1, lon0, lon1⟩
      let tail ← providers_for_bounds_loop get_bounds bounds rest
      if bounds_overlap bounds region_bbox then
        .ok (region_providers rid ++ tail)
      else
        .ok tail

/-- RiverProviderFactory.get_providers_for_bounds, with the region registry's
`get_bounds` passed as a function from region id to the region's `bounds`
dict (a string-keyed association list, as loaded from the region document). -/
def get_providers_for_bounds (get_bounds : String → List (String × ℚ))
    (bounds : BoundingBox) : Except String (List String) :=
  providers_for_bounds_loop get_bounds bounds ["srilanka", "south_india"]

/-- Modelled from the spec: the region definition document (`regions.json`) is
not under `src/`; §6 of the specification fixes its contract: each region
object carries `bounds {minLat, maxLat, minLon, maxLon}` — camelCase keys, as
`RegionConfig.get_bounds` also documents.  The four numeric values are left as
parameters. -/
def spec_region_bounds (a b c d : ℚ) : List (String × ℚ) :=
  [("minLat", a), ("maxLat", b), ("minLon", c), ("maxLon", d)]

/-! ## Composite flood-threat engine (`flood_threat_cache.py`) -/

/-- One record of `weather_cache.get_all_weather()`, restricted to the fields
`_calculate_district_threat` and `_compute_flood_threat` read.  The Python
code reads them with `weather.get(key, 0) or 0`; `get_all_weather` always
populates them with numbers, so they are total fields here. -/
structure WeatherRec where
  district : String
  rainfall_24h_mm : ℚ
  rainfall_48h_mm : ℚ
  rainfall_72h_mm : ℚ
  alert_level : String
  latitude : ℚ
  longitude : ℚ

/-- One record of `weather_cache.get_all_forecast()`, restricted to the fields
the threat engine reads. -/
structure ForecastRec where
  district : String
  forecast_precip_24h_mm : ℚ
  forecast_precip_48h_mm : ℚ

/-- One river record of `irrigation_fetcher.get_cached_data()`, restricted to
the fields the threat engine reads (`pct_to_*` default to 100 in the code; a
record always carries them here). -/
structure RiverRec where
  districts : List String
  pct_to_alert : ℚ
  pct_to_minor_flood : ℚ
  pct_to_major_flood : ℚ

/-- Python `str.lower()` restricted to ASCII case folding (district names in
the data are ASCII). -/
def str_lower (s : String) : String :=
  ⟨s.data.map Char.toLower⟩

/-- The rainfall subscore (step 1 of `_calculate_district_threat`). -/
def rainfall_score (w : WeatherRec) : ℚ :=
  if w.rainfall_24h_mm > 100 ∨ w.rainfall_48h_mm > 150 ∨ w.rainfall_72h_mm > 200 then 100
  else if w.rainfall_24h_mm > 50 ∨ w.rainfall_48h_mm > 100 then 70
  else if w.rainfall_24h_mm > 25 then 40
  else 10

/-- The per-river score inside the river loop of `_calculate_district_threat`. -/
def river_score_one (r : RiverRec) : ℚ :=
  if r.pct_to_major_flood < 0 then 100
  else if r.pct_to_minor_flood < 0 then 85
  else if r.pct_to_alert < 0 then 60
  else if r.pct_to_alert < 20 then 40
  else 10

/-- The `district_rivers` list comprehension: rivers whose (lower-cased)
`districts` tags contain the (lower-cased) district. -/
def district_rivers (district : String) (river_data : List RiverRec) : List RiverRec :=
  river_data.filter (fun r => (r.districts.map str_lower).contains (str_lower district))

/-- The river-level subscore (step 2): maximum per-river score over the
district's rivers, starting from `max_river_score = 0`; 0 when the district
has no rivers. -/
def river_level_score (district : String) (river_data : List RiverRec) : ℚ :=
  let dr := district_rivers district river_data
  if dr.isEmpty then 0
  else dr.foldl (fun acc r => max acc (river_score_one r)) 0

/-- The forecast subscore (step 3): locate the district's forecast record with
`next(...)`, then the banded score; 0 when no forecast exists. -/
def forecast_score (district : String) (forecast_data : List ForecastRec) : ℚ :=
  match forecast_data.find? (fun f => f.district == district) with
  | none => 0
  | some f =>
    if f.forecast_precip_24h_mm > 75 ∨ f.forecast_precip_48h_mm > 125 then 100
    else if f.forecast_precip_24h_mm > 50 ∨ f.forecast_precip_48h_mm > 75 then 65
    else if f.forecast_precip_24h_mm > 25 then 35
    else 5

/-- Python `round(x, 1)`: round to one decimal place.  (CPython rounds the
nearest-representable float half-to-even; no value produced by the threat
engine lies on a tie, so nearest rounding over `ℚ` is faithful.) -/
def round1 (q : ℚ) : ℚ :=
  (round (10 * q) : ℤ) / 10

/-- The threat-level bands shared by `_calculate_district_threat` and
`_compute_flood_threat` (identical `if` chains in the source). -/
def threat_level_of (score : ℚ) : String :=
  if score ≥ 70 then "CRITICAL"
  else if score ≥ 50 then "HIGH"
  else if score ≥ 30 then "MEDIUM"
  else "LOW"

/-- The per-district result dict of `_calculate_district_threat` (the
descriptive `factors` list is omitted: no computation reads it). -/
structure DistrictThreat where
  district : String
  threat_score : ℚ
  threat_level : String
  rainfall_score : ℚ
  river_score : ℚ
  forecast_score : ℚ
  current_alert_level : String
  lat : ℚ
  lon : ℚ

/-- FloodThreatCache._calculate_district_threat. -/
def calculate_district_threat (district : String) (weather : WeatherRec)
    (forecast_data : List ForecastRec) (river_data : List RiverRec) : DistrictThreat :=
  let rs := rainfall_score weather
  let vs := river_level_score district river_data
  let fs := forecast_score district forecast_data
  let threat := rs * (3/10) + vs * (4/10) + fs * (3/10)
  { district := district
    threat_score := round1 threat
    threat_level := threat_level_of threat
    rainfall_score := round1 rs
    river_score := round1 vs
    forecast_score := round1 fs
    current_alert_level := weather.alert_level
    lat := weather.latitude
    lon := weather.longitude }

/-- The district loop of `_compute_flood_threat`: skip records whose
`district` is the empty string, score the rest. -/
def district_threats_of (weather_data : List WeatherRec)
    (forecast_data : List ForecastRec) (river_data : List RiverRec) : List DistrictThreat :=
  weather_data.filterMap (fun w =>
    if w.district == "" then none
    else some (calculate_district_threat w.district w forecast_data river_data))

/-- Python `list.sort(key=threat_score, reverse=True)`: a stable sort into
non-increasing threat-score order. -/
def sort_by_threat (l : List DistrictThreat) : List DistrictThreat :=
  l.mergeSort (fun a b => decide (b.threat_score ≤ a.threat_score))

/-- The snapshot dict built by `_compute_flood_threat` (river summary and
`analyzed_at`, which come from other services or the wall clock, are
omitted). -/
structure ThreatSnapshot where
  national_threat_level : String
  national_threat_score : ℚ
  critical_districts : ℕ
  high_risk_districts : ℕ
  medium_risk_districts : ℕ
  top_risk_districts : List DistrictThreat
  all_districts : List DistrictThreat

/-- FloodThreatCache._compute_flood_threat: build and sort the district
threats, aggregate the national score `avg·0.3 + max·0.7` (0 when no
districts), band the national level, and take the top ten. -/
def compute_flood_threat (weather_data : List WeatherRec)
    (forecast_data : List ForecastRec) (river_data : List RiverRec) : ThreatSnapshot :=
  let district_threats := sort_by_threat (district_threats_of weather_data forecast_data river_data)
  let scores := district_threats.map (·.threat_score)
  let national_score : ℚ :=
    if scores.isEmpty then 0
    else (scores.sum / (scores.length : ℚ)) * (3/10) + (scores.max?.getD 0) * (7/10)
  { national_threat_level := threat_level_of national_score
    national_threat_score := round1 national_score
    critical_districts := district_threats.countP (·.threat_level == "CRITICAL")
    high_risk_districts := district_threats.countP (·.threat_level == "HIGH")
    medium_risk_districts := district_threats.countP (·.threat_level == "MEDIUM")
    top_risk_districts := district_threats.take 10
    all_districts := district_threats }

/-! ## Weather cache state machine (`weather_cache.py`)

Time is measured in minutes on `ℚ`.  The cached per-district payload is a
type parameter: no claim inspects it. -/

/-- The weather cache TTL, `CACHE_DURATION_MINUTES = 60`. -/
def CACHE_DURATION_MINUTES : ℚ := 60

/-- The mutable state of `WeatherCache`: the `_cache` dict and `_last_update`. -/
structure WeatherCacheState (α : Type) where
  cache : List (String × α)
  last_update : Option ℚ

/-- WeatherCache.is_cache_valid: always true under freeze mode once data
exists; otherwise requires data, a timestamp, and age strictly below the TTL. -/
def weather_is_cache_valid {α : Type} (freeze_mode : Bool)
    (s : WeatherCacheState α) (now : ℚ) : Bool :=
  if freeze_mode && !s.cache.isEmpty then true
  else
    match s.last_update with
    | none => false
    | some t => !s.cache.isEmpty && decide (now - t < CACHE_DURATION_MINUTES)

/-- Result of one `refresh_cache` call: the returned boolean, the state after
the call, and whether an upstream fetch was performed. -/
structure RefreshOutcome (α : Type) where
  result : Bool
  state : WeatherCacheState α
  fetched : Bool

/-- WeatherCache.refresh_cache: skip when the cache is valid and `force` is
not set; otherwise fetch (`fetch_result` is the outcome of
`_fetch_here_weather`: an exception or a new cache dict) and overwrite the
cache only when the fetch produced a non-empty dict. -/
def weather_refresh_cache {α : Type} (freeze_mode : Bool) (s : WeatherCacheState α)
    (force : Bool) (fetch_result : Except Unit (List (String × α))) (now : ℚ) :
    RefreshOutcome α :=
  if !force && weather_is_cache_valid freeze_mode s now then
    ⟨true, s, false⟩
  else
    match fetch_result with
    | .error _ => ⟨false, s, true⟩
    | .ok new_cache =>
      if !new_cache.isEmpty then ⟨true, ⟨new_cache, some now⟩, true⟩
      else ⟨false, s, true⟩

/-! ## Flood-threat cache state machine (`flood_threat_cache.py`) -/

/-- The mutable state of `FloodThreatCache`: `_cached_data`, `_last_updated`,
and the `_is_refreshing` guard.  The cache TTL is 30 minutes. -/
structure ThreatCacheState (σ : Type) where
  cached_data : Option σ
  last_updated : Option ℚ
  is_refreshing : Bool

/-- FloodThreatCache.is_cache_valid: requires data and a timestamp, and age
strictly below the 30-minute TTL.  (A stored snapshot dict is never empty, so
Python's falsiness test on `_cached_data` is `is None` here.) -/
def threat_is_cache_valid {σ : Type} (s : ThreatCacheState σ) (now : ℚ) : Bool :=
  match s.cached_data, s.last_updated with
  | some _, some t => decide (now - t < 30)
  | _, _ => false

/-- FloodThreatCache.refresh_cache: bail out while a refresh is in flight,
skip when valid and not forced, otherwise run `_compute_flood_threat`
(`compute_result`: an exception or a snapshot) and overwrite the cache only on
success.  The dependency refreshes it triggers mutate other caches, not this
state. -/
def threat_refresh_cache {σ : Type} (s : ThreatCacheState σ) (force : Bool)
    (compute_result : Except Unit σ) (now : ℚ) : Bool × ThreatCacheState σ :=
  if s.is_refreshing then (false, s)
  else if !force && threat_is_cache_valid s now then (true, s)
  else
    match compute_result with
    | .error _ => (false, { s with is_refreshing := false })
    | .ok d => (true, ⟨some d, some now, false⟩)

/-! ## Claim theorems -/

/-- C1: for a region's threshold table, `get_alert_threshold` scans the bands
in severity order red, orange, yellow, green and returns the first band whose
`min ≤ rainfall ≤ max`, returning green when no band matches; and on the
bands green (0,25), yellow (25,50), orange (50,100), red (100,∞) the rainfall
inputs 0, 24.9, 25, 49.9, 50, 99.9, 100, 500 classify as green, green,
yellow, yellow, orange, orange, red, red. -/
theorem C1_alert_threshold_scan :
    (∀ (th : AlertLevel → Option Band) (r : ℚ),
      get_alert_threshold th r = first_matching_level th r) ∧
    [(0 : ℚ), 24.9, 25, 49.9, 50, 99.9, 100, 500].map
        (get_alert_threshold standard_thresholds) =
      [.green, .green, .yellow, .yellow, .orange, .orange, .red, .red] := by
  constructor
  · intro th r
    cases h1 : band_matches th .red r <;>
      cases h2 : band_matches th .orange r <;>
        cases h3 : band_matches th .yellow r <;>
          cases h4 : band_matches th .green r <;>
            simp [get_alert_threshold, first_matching_level, severity_order,
              scan_levels, List.find?, h1, h2, h3, h4]
  · norm_num [get_alert_threshold, scan_levels, severity_order, band_matches,
      bandMinRain, bandMaxRain, standard_thresholds]

/-- C2: a district with 24-hour rainfall 60 (48-hour ≤ 100, 72-hour ≤ 200),
exactly one tagged river with `pct_to_alert = -5` and non-negative
`pct_to_minor_flood` and `pct_to_major_flood`, and a forecast record with 30 mm
in 24 hours (≤ 75 in 48) scores rainfall 70, river 60, forecast 35, composite
`0.30·70 + 0.40·60 + 0.30·35 = 55.5`, threat level HIGH. -/
theorem C2_district_threat_scenario
    (w : WeatherRec) (r : RiverRec) (forecast_data : List ForecastRec) (f : ForecastRec)
    (h24 : w.rainfall_24h_mm = 60) (h48 : w.rainfall_48h_mm ≤ 100)
    (h72 : w.rainfall_72h_mm ≤ 200)
    (htag : (r.districts.map str_lower).contains (str_lower w.district) = true)
    (halert : r.pct_to_alert = -5) (hminor : 0 ≤ r.pct_to_minor_flood)
    (hmajor : 0 ≤ r.pct_to_major_flood)
    (hfind : forecast_data.find? (fun g => g.district == w.district) = some f)
    (hf24 : f.forecast_precip_24h_mm = 30) (hf48 : f.forecast_precip_48h_mm ≤ 75) :
    (calculate_district_threat w.district w forecast_data [r]).rainfall_score = 70 ∧
    (calculate_district_threat w.district w forecast_data [r]).river_score = 60 ∧
    (calculate_district_threat w.district w forecast_data [r]).forecast_score = 35 ∧
    (calculate_district_threat w.district w forecast_data [r]).threat_score = 55.5 ∧
    (calculate_district_threat w.district w forecast_data [r]).threat_level = "HIGH" := by
  have hrs : rainfall_score w = 70 := by
    unfold rainfall_score
    rw [h24]
    split_ifs with hA hB
    · rcases hA with h | h | h
      · norm_num at h
      · linarith
      · linarith
    · rfl
    · exact absurd (Or.inl (by norm_num)) hB
    · exact absurd (Or.inl (by norm_num)) hB
  have hone : river_score_one r = 60 := by
    unfold river_score_one
    rw [halert, if_neg (not_lt.mpr hmajor), if_neg (not_lt.mpr hminor),
      if_pos (by norm_num)]
  have hvs : river_level_score w.district [r] = 60 := by
    unfold river_level_score district_rivers
    simp only [List.filter, htag, List.isEmpty_cons, List.foldl, hone]
    norm_num
  have hfs : forecast_score w.district forecast_data = 35 := by
    unfold forecast_score
    rw [hfind]
    dsimp only
    rw [hf24]
    split_ifs with hA hB hC
    · rcases hA with h | h
      · norm_num at h
      · linarith
    · rcases hB with h | h
      · norm_num at h
      · linarith
    · rfl
    · exact absurd (by norm_num : (30 : ℚ) > 25) hC
  unfold calculate_district_threat
  rw [hrs, hvs, hfs]
  refine ⟨?_, ?_, ?_, ?_, ?_⟩ <;>
    norm_num [round1, round_eq, threat_level_of]

/-- Concrete weather record for the C2 witness. -/
def c2_weather : WeatherRec := ⟨"Colombo", 60, 0, 0, "green", 6.9, 79.8⟩

/-- Concrete river record for the C2 witness. -/
def c2_river : RiverRec := ⟨["Colombo", "Gampaha"], -5, 10, 20⟩

/-- Concrete forecast record for the C2 witness. -/
def c2_forecast : ForecastRec := ⟨"Colombo", 30, 40⟩

/-- Witness for C2 at a concrete district. -/
theorem C2_district_threat_scenario_witness :
    (c2_weather.rainfall_24h_mm = 60 ∧ c2_weather.rainfall_48h_mm ≤ 100 ∧
     c2_weather.rainfall_72h_mm ≤ 200 ∧
     (c2_river.districts.map str_lower).contains (str_lower c2_weather.district) = true ∧
     c2_river.pct_to_alert = -5 ∧ 0 ≤ c2_river.pct_to_minor_flood ∧
     0 ≤ c2_river.pct_to_major_flood ∧
     [c2_forecast].find? (fun g => g.district == c2_weather.district) = some c2_forecast ∧
     c2_forecast.forecast_precip_24h_mm = 30 ∧ c2_forecast.forecast_precip_48h_mm ≤ 75) ∧
    (calculate_district_threat c2_weather.district c2_weather [c2_forecast]
        [c2_river]).threat_score = 55.5 ∧
    (calculate_district_threat c2_weather.district c2_weather [c2_forecast]
        [c2_river]).threat_level = "HIGH" := by
  refine ⟨⟨rfl, by decide, by decide, by decide, rfl, by decide, by decide, rfl,
    rfl, by decide⟩, ?_, ?_⟩
  · exact (C2_district_threat_scenario c2_weather c2_river [c2_forecast] c2_forecast
      rfl (by decide) (by decide) (by decide) rfl (by decide) (by decide) rfl
      rfl (by decide)).2.2.2.1
  · exact (C2_district_threat_scenario c2_weather c2_river [c2_forecast] c2_forecast
      rfl (by decide) (by decide) (by decide) rfl (by decide) (by decide) rfl
      rfl (by decide)).2.2.2.2

/-- Rank of a threat-level string in the order LOW < MEDIUM < HIGH < CRITICAL. -/
def threat_level_rank (l : String) : ℕ :=
  if l = "CRITICAL" then 3 else if l = "HIGH" then 2 else if l = "MEDIUM" then 1 else 0

lemma rainfall_score_bounds (w : WeatherRec) :
    0 ≤ rainfall_score w ∧ rainfall_score w ≤ 100 := by
  unfold rainfall_score
  split_ifs <;> norm_num

lemma river_score_one_bounds (r : RiverRec) :
    0 ≤ river_score_one r ∧ river_score_one r ≤ 100 := by
  unfold river_score_one
  split_ifs <;> norm_num

lemma river_fold_bounds (l : List RiverRec) (acc : ℚ) (h0 : 0 ≤ acc) (h1 : acc ≤ 100) :
    0 ≤ l.foldl (fun a r => max a (river_score_one r)) acc ∧
    l.foldl (fun a r => max a (river_score_one r)) acc ≤ 100 := by
  induction l generalizing acc with
  | nil => exact ⟨h0, h1⟩
  | cons r rest ih =>
    exact ih (max acc (river_score_one r)) (le_max_of_le_left h0)
      (max_le h1 (river_score_one_bounds r).2)

lemma river_level_score_bounds (district : String) (river_data : List RiverRec) :
    0 ≤ river_level_score district river_data ∧
    river_level_score district river_data ≤ 100 := by
  simp only [river_level_score]
  split_ifs
  · norm_num
  · exact river_fold_bounds _ 0 le_rfl (by norm_num)

lemma forecast_score_bounds (district : String) (forecast_data : List ForecastRec) :
    0 ≤ forecast_score district forecast_data ∧
    forecast_score district forecast_data ≤ 100 := by
  unfold forecast_score
  cases forecast_data.find? (fun f => f.district == district) with
  | none => norm_num
  | some f =>
    dsimp only
    split_ifs <;> norm_num

lemma round_bounds_of_le (q : ℚ) (lo hi : ℤ) (h0 : (lo : ℚ) ≤ q) (h1 : q ≤ (hi : ℚ)) :
    lo ≤ round q ∧ round q ≤ hi := by
  constructor
  · rw [round_eq]
    exact Int.le_floor.mpr (by linarith)
  · rw [round_eq]
    have hf : ((⌊q + 1 / 2⌋ : ℤ) : ℚ) ≤ q + 1 / 2 := Int.floor_le _
    have : ((⌊q + 1 / 2⌋ : ℤ) : ℚ) < (hi : ℚ) + 1 := by linarith
    have : (⌊q + 1 / 2⌋ : ℤ) < hi + 1 := by exact_mod_cast this
    omega

lemma round1_bounds (q : ℚ) (h0 : 0 ≤ q) (h1 : q ≤ 100) :
    0 ≤ round1 q ∧ round1 q ≤ 100 := by
  obtain ⟨ha, hb⟩ := round_bounds_of_le (10 * q) 0 1000 (by norm_num; linarith)
    (by norm_num; linarith)
  have ha2 : (0 : ℚ) ≤ (round (10 * q) : ℚ) := by exact_mod_cast ha
  have hb2 : ((round (10 * q) : ℤ) : ℚ) ≤ 1000 := by exact_mod_cast hb
  unfold round1
  constructor <;> linarith

/-- C4: for every combination of weather record, forecast list and river list,
the composite threat score and each of the three subscores lie in `[0, 100]`,
and the score-to-level banding is monotone non-decreasing in the order
LOW < MEDIUM < HIGH < CRITICAL. -/
theorem C4_threat_score_bounds_and_monotone :
    (∀ (district : String) (w : WeatherRec) (forecast_data : List ForecastRec)
        (river_data : List RiverRec),
      (0 ≤ (calculate_district_threat district w forecast_data river_data).threat_score ∧
        (calculate_district_threat district w forecast_data river_data).threat_score ≤ 100) ∧
      (0 ≤ (calculate_district_threat district w forecast_data river_data).rainfall_score ∧
        (calculate_district_threat district w forecast_data river_data).rainfall_score ≤ 100) ∧
      (0 ≤ (calculate_district_threat district w forecast_data river_data).river_score ∧
        (calculate_district_threat district w forecast_data river_data).river_score ≤ 100) ∧
      (0 ≤ (calculate_district_threat district w forecast_data river_data).forecast_score ∧
        (calculate_district_threat district w forecast_data river_data).forecast_score ≤ 100)) ∧
    (∀ s t : ℚ, s ≤ t →
      threat_level_rank (threat_level_of s) ≤ threat_level_rank (threat_level_of t)) := by
  constructor
  · intro district w forecast_data river_data
    obtain ⟨hr0, hr1⟩ := rainfall_score_bounds w
    obtain ⟨hv0, hv1⟩ := river_level_score_bounds district river_data
    obtain ⟨hf0, hf1⟩ := forecast_score_bounds district forecast_data
    unfold calculate_district_threat
    refine ⟨round1_bounds _ (by linarith) (by linarith), round1_bounds _ hr0 hr1,
      round1_bounds _ hv0 hv1, round1_bounds _ hf0 hf1⟩
  · intro s t hst
    unfold threat_level_of
    split_ifs <;> first | decide | (exfalso; linarith)

/-- Witness for the monotonicity conjunct of C4 at scores 0 and 50. -/
theorem C4_threat_score_bounds_and_monotone_witness :
    (0 : ℚ) ≤ 50 ∧
    threat_level_rank (threat_level_of 0) ≤ threat_level_rank (threat_level_of 50) :=
  ⟨by decide, C4_threat_score_bounds_and_monotone.2 0 50 (by decide)⟩

/-- The multiset of per-district threat scores, in the order the district
loop produces them (before sorting). -/
def district_scores (weather_data : List WeatherRec) (forecast_data : List ForecastRec)
    (river_data : List RiverRec) : List ℚ :=
  (district_threats_of weather_data forecast_data river_data).map (·.threat_score)

lemma sort_by_threat_perm (l : List DistrictThreat) : (sort_by_threat l).Perm l :=
  List.mergeSort_perm l _

/-- C3: the national threat score is `0.3·avg + 0.7·max` of the district
scores rounded to one decimal, with level CRITICAL at ≥ 70, HIGH at ≥ 50,
MEDIUM at ≥ 30 and LOW below (bands applied to the unrounded aggregate, as in
the code); with no districts the score is 0 and the level LOW. -/
theorem C3_national_aggregate (weather_data : List WeatherRec)
    (forecast_data : List ForecastRec) (river_data : List RiverRec) :
    (∀ M : ℚ,
      (district_scores weather_data forecast_data river_data).maximum = (M : WithBot ℚ) →
      (compute_flood_threat weather_data forecast_data river_data).national_threat_score =
        round1 ((3 / 10) * ((district_scores weather_data forecast_data river_data).sum /
            ((district_scores weather_data forecast_data river_data).length : ℚ)) +
          (7 / 10) * M) ∧
      (compute_flood_threat weather_data forecast_data river_data).national_threat_level =
        (if (3 / 10) * ((district_scores weather_data forecast_data river_data).sum /
              ((district_scores weather_data forecast_data river_data).length : ℚ)) +
            (7 / 10) * M ≥ 70 then "CRITICAL"
         else if (3 / 10) * ((district_scores weather_data forecast_data river_data).sum /
              ((district_scores weather_data forecast_data river_data).length : ℚ)) +
            (7 / 10) * M ≥ 50 then "HIGH"
         else if (3 / 10) * ((district_scores weather_data forecast_data river_data).sum /
              ((district_scores weather_data forecast_data river_data).length : ℚ)) +
            (7 / 10) * M ≥ 30 then "MEDIUM"
         else "LOW")) ∧
    (district_scores weather_data forecast_data river_data = [] →
      (compute_flood_threat weather_data forecast_data river_data).national_threat_score = 0 ∧
      (compute_flood_threat weather_data forecast_data river_data).national_threat_level =
        "LOW") := by
  have hperm : ((sort_by_threat (district_threats_of weather_data forecast_data
      river_data)).map (·.threat_score)).Perm
      (district_scores weather_data forecast_data river_data) :=
    (sort_by_threat_perm _).map _
  constructor
  · intro M hM
    rw [List.maximum_eq_coe_iff] at hM
    obtain ⟨hmem, hbound⟩ := hM
    have hmem2 : M ∈ (sort_by_threat (district_threats_of weather_data forecast_data
        river_data)).map (·.threat_score) := hperm.mem_iff.mpr hmem
    have hmax2 : ((sort_by_threat (district_threats_of weather_data forecast_data
        river_data)).map (·.threat_score)).maximum = (M : WithBot ℚ) :=
      List.maximum_eq_coe_iff.mpr ⟨hmem2, fun a ha => hbound a (hperm.subset ha)⟩
    have hgetD : ((sort_by_threat (district_threats_of weather_data forecast_data
        river_data)).map (·.threat_score)).max?.getD 0 = M := by
      rw [List.getD_max?_eq_unbot'_maximum, hmax2]
      rfl
    have hne : ((sort_by_threat (district_threats_of weather_data forecast_data
        river_data)).map (·.threat_score)).isEmpty = false := by
      simp only [List.isEmpty_eq_false_iff_exists_mem]
      exact ⟨M, hmem2⟩
    have hsum := hperm.sum_eq
    have hlen := hperm.length_eq
    have harg : ((sort_by_threat (district_threats_of weather_data forecast_data
          river_data)).map (·.threat_score)).sum /
          (((sort_by_threat (district_threats_of weather_data forecast_data
            river_data)).map (·.threat_score)).length : ℚ) * (3 / 10) +
        ((sort_by_threat (district_threats_of weather_data forecast_data
          river_data)).map (·.threat_score)).max?.getD 0 * (7 / 10) =
        (3 / 10) * ((district_scores weather_data forecast_data river_data).sum /
            ((district_scores weather_data forecast_data river_data).length : ℚ)) +
          (7 / 10) * M := by
      rw [hsum, hlen, hgetD]
      ring
    unfold compute_flood_threat
    simp only [hne, Bool.false_eq_true, if_false, harg]
    exact ⟨trivial, rfl⟩
  · intro hnil
    have h0 : district_threats_of weather_data forecast_data river_data = [] :=
      List.map_eq_nil_iff.mp hnil
    unfold compute_flood_threat
    rw [h0]
    simp only [sort_by_threat, List.mergeSort_nil, List.map_nil, List.isEmpty_nil,
      if_pos]
    constructor
    · show round1 0 = 0
      norm_num [round1, round_eq]
    · show threat_level_of 0 = "LOW"
      norm_num [threat_level_of]

/-- Witness for C3: with no weather records there are no district scores, the
national score is 0 and the level is LOW. -/
theorem C3_national_aggregate_witness :
    district_scores [] [] [] = [] ∧
    (compute_flood_threat [] [] []).national_threat_score = 0 ∧
    (compute_flood_threat [] [] []).national_threat_level = "LOW" :=
  ⟨rfl, (C3_national_aggregate [] [] []).2 rfl⟩

/-- C10: every snapshot lists `all_districts` in non-increasing threat-score
order, and `top_risk_districts` is exactly its first ten entries (all entries
when fewer than ten districts exist). -/
theorem C10_snapshot_sorted_and_top10 (weather_data : List WeatherRec)
    (forecast_data : List ForecastRec) (river_data : List RiverRec) :
    (compute_flood_threat weather_data forecast_data river_data).all_districts.Pairwise
      (fun a b => b.threat_score ≤ a.threat_score) ∧
    (compute_flood_threat weather_data forecast_data river_data).top_risk_districts =
      (compute_flood_threat weather_data forecast_data river_data).all_districts.take 10 ∧
    ((compute_flood_threat weather_data forecast_data river_data).all_districts.length ≤ 10 →
      (compute_flood_threat weather_data forecast_data river_data).top_risk_districts =
        (compute_flood_threat weather_data forecast_data river_data).all_districts) := by
  have htrans : ∀ a b c : DistrictThreat,
      decide (b.threat_score ≤ a.threat_score) = true →
      decide (c.threat_score ≤ b.threat_score) = true →
      decide (c.threat_score ≤ a.threat_score) = true := fun a b c hab hbc =>
    decide_eq_true (le_trans (of_decide_eq_true hbc) (of_decide_eq_true hab))
  have htotal : ∀ a b : DistrictThreat,
      (decide (b.threat_score ≤ a.threat_score)
        || decide (a.threat_score ≤ b.threat_score)) = true := by
    intro a b
    rw [Bool.or_eq_true]
    rcases le_total b.threat_score a.threat_score with h | h
    · exact Or.inl (decide_eq_true h)
    · exact Or.inr (decide_eq_true h)
  have hpair := @List.sorted_mergeSort DistrictThreat
    (fun a b => decide (b.threat_score ≤ a.threat_score)) htrans htotal
    (district_threats_of weather_data forecast_data river_data)
  have htake : (compute_flood_threat weather_data forecast_data river_data).top_risk_districts =
      (compute_flood_threat weather_data forecast_data river_data).all_districts.take 10 := rfl
  refine ⟨?_, htake, ?_⟩
  · exact hpair.imp (fun h => of_decide_eq_true h)
  · intro h
    rw [htake, List.take_of_length_le h]

/-- Witness for C10: the empty snapshot has at most ten districts, so the top
list is the whole list. -/
theorem C10_snapshot_sorted_and_top10_witness :
    (compute_flood_threat [] [] []).all_districts.length ≤ 10 ∧
    (compute_flood_threat [] [] []).top_risk_districts =
      (compute_flood_threat [] [] []).all_districts :=
  ⟨by simp [compute_flood_threat, district_threats_of, sort_by_threat],
    (C10_snapshot_sorted_and_top10 [] [] []).2.2
      (by simp [compute_flood_threat, district_threats_of, sort_by_threat])⟩

/-- C6 counterexample: a weather-cache state with a fresh timestamp but no
cached data is reported invalid even though `now - lastUpdated < ttl`, so
validity is not equivalent to the age test alone. -/
theorem C6_ttl_iff_counterexample :
    weather_is_cache_valid false (⟨[], some 0⟩ : WeatherCacheState Unit) 0 = false ∧
    (0 : ℚ) - 0 < CACHE_DURATION_MINUTES := by
  refine ⟨rfl, ?_⟩
  norm_num [CACHE_DURATION_MINUTES]

/-- C6 amended: `is_cache_valid` returns true iff cached data exists, a
timestamp exists, and `now - lastUpdated` is strictly below the TTL (60
minutes for the weather cache, 30 for the flood-threat cache) — except that
under freeze mode the weather cache is valid as soon as any data exists. -/
theorem C6_ttl_iff_amended :
    (∀ (α : Type) (freeze : Bool) (s : WeatherCacheState α) (now : ℚ),
      weather_is_cache_valid freeze s now = true ↔
        ((freeze = true ∧ s.cache ≠ []) ∨
          (s.cache ≠ [] ∧ ∃ t, s.last_update = some t ∧
            now - t < CACHE_DURATION_MINUTES))) ∧
    (∀ (σ : Type) (s : ThreatCacheState σ) (now : ℚ),
      threat_is_cache_valid s now = true ↔
        (s.cached_data ≠ none ∧ ∃ t, s.last_updated = some t ∧ now - t < 30)) := by
  constructor
  · intro α freeze s now
    obtain ⟨c, u⟩ := s
    cases c <;> cases u <;> cases freeze <;>
      simp [weather_is_cache_valid, CACHE_DURATION_MINUTES]
  · intro σ s now
    obtain ⟨d, u, g⟩ := s
    cases d <;> cases u <;> simp [threat_is_cache_valid]

/-- Witness for C6 (amended): a frozen weather cache with one entry and no
timestamp is valid, and a threat cache updated at time 0 is valid at time 10. -/
theorem C6_ttl_iff_amended_witness :
    weather_is_cache_valid true (⟨[("Colombo", ())], none⟩ : WeatherCacheState Unit) 0 = true ∧
    threat_is_cache_valid (⟨some (), some 0, false⟩ : ThreatCacheState Unit) 10 = true :=
  ⟨(C6_ttl_iff_amended.1 Unit true ⟨[("Colombo", ())], none⟩ 0).mpr
      (Or.inl ⟨rfl, by decide⟩),
    (C6_ttl_iff_amended.2 Unit ⟨some (), some 0, false⟩ 10).mpr
      ⟨by decide, 0, rfl, by norm_num⟩⟩

/-- C7: with freeze mode on and a cached value, `refresh_cache(force=True)`
still performs the upstream fetch and overwrites the cache and timestamp
(contradicting the claim and the code's own freeze-mode comment); validity
under freeze does hold. -/
theorem C7_freeze_force_still_fetches :
    weather_refresh_cache true (⟨[("Colombo", ())], some 0⟩ : WeatherCacheState Unit) true
        (.ok [("Kandy", ())]) 1 =
      ⟨true, ⟨[("Kandy", ())], some 1⟩, true⟩ ∧
    weather_is_cache_valid true (⟨[("Colombo", ())], some 0⟩ : WeatherCacheState Unit) 1 =
      true :=
  ⟨rfl, rfl⟩

/-- C8: a refresh cycle that fails entirely — the fetch raises, or returns no
data — reports failure and leaves the cached value and timestamp exactly as
they were, for both caches; the cache is only overwritten on success. -/
theorem C8_failed_refresh_preserves_cache :
    (∀ (α : Type) (freeze force : Bool) (s : WeatherCacheState α) (now : ℚ)
        (fetch_result : Except Unit (List (String × α))),
      (fetch_result = .error () ∨ fetch_result = .ok []) →
      (weather_refresh_cache freeze s force fetch_result now).state = s ∧
      ((weather_refresh_cache freeze s force fetch_result now).fetched = true →
        (weather_refresh_cache freeze s force fetch_result now).result = false)) ∧
    (∀ (σ : Type) (force : Bool) (s : ThreatCacheState σ) (now : ℚ),
      (threat_refresh_cache s force (.error ()) now).2.cached_data = s.cached_data ∧
      (threat_refresh_cache s force (.error ()) now).2.last_updated = s.last_updated ∧
      (¬(force = false ∧ threat_is_cache_valid s now = true ∧
          s.is_refreshing = false) →
        (threat_refresh_cache s force (.error ()) now).1 = false)) := by
  constructor
  · intro α freeze force s now fetch_result hfail
    unfold weather_refresh_cache
    split_ifs with hskip
    · exact ⟨rfl, by intro h; cases h⟩
    · rcases hfail with rfl | rfl
      · exact ⟨rfl, fun _ => rfl⟩
      · exact ⟨rfl, fun _ => rfl⟩
  · intro σ force s now
    unfold threat_refresh_cache
    split_ifs with href hskip
    · exact ⟨rfl, rfl, fun _ => rfl⟩
    · have hsk : (!force) = true ∧ threat_is_cache_valid s now = true := by
        simpa using hskip
      have hforce : force = false := by
        cases force
        · rfl
        · cases hsk.1
      have href2 : s.is_refreshing = false := by
        cases h : s.is_refreshing
        · rfl
        · exact absurd h href
      exact ⟨rfl, rfl, fun hc => absurd ⟨hforce, hsk.2, href2⟩ hc⟩
    · exact ⟨rfl, rfl, fun _ => rfl⟩

/-- Witness for C8: a forced weather refresh whose fetch raises leaves the
concrete one-entry cache untouched and reports failure. -/
theorem C8_failed_refresh_preserves_cache_witness :
    ((Except.error () : Except Unit (List (String × Unit))) = .error () ∨
      (Except.error () : Except Unit (List (String × Unit))) = .ok []) ∧
    (weather_refresh_cache false (⟨[("Colombo", ())], some 0⟩ : WeatherCacheState Unit)
        true (.error ()) 5).state = ⟨[("Colombo", ())], some 0⟩ ∧
    ((weather_refresh_cache false (⟨[("Colombo", ())], some 0⟩ : WeatherCacheState Unit)
        true (.error ()) 5).fetched = true →
      (weather_refresh_cache false (⟨[("Colombo", ())], some 0⟩ : WeatherCacheState Unit)
        true (.error ()) 5).result = false) ∧
    (threat_refresh_cache (⟨some (), some 0, false⟩ : ThreatCacheState Unit) true
        (.error ()) 5).1 = false :=
  ⟨Or.inl rfl,
    (C8_failed_refresh_preserves_cache.1 Unit false true ⟨[("Colombo", ())], some 0⟩ 5
      (.error ()) (Or.inl rfl)).1,
    (C8_failed_refresh_preserves_cache.1 Unit false true ⟨[("Colombo", ())], some 0⟩ 5
      (.error ()) (Or.inl rfl)).2,
    (C8_failed_refresh_preserves_cache.2 Unit true ⟨some (), some 0, false⟩ 5).2.2
      (fun h => absurd h.1 (by decide))⟩

/-- C9 counterexample: TomTom `magnitudeOfDelay = 0` (the default when the
field is absent) maps to severity `unknown`, which is none of minor,
moderate, major, critical. -/
theorem C9_severity_counterexample :
    get_severity 0 = "unknown" ∧
    "unknown" ∉ ["minor", "moderate", "major", "critical"] ∧
    incident_severity none = "unknown" := by
  refine ⟨by decide, by decide, by decide⟩

/-- C9 amended: every severity is one of unknown, minor, moderate, major,
critical; for magnitudes ≥ 1 it is one of the four claimed values; and every
fetched incident's severity is among the five. -/
theorem C9_severity_amended :
    (∀ m : ℤ,
      get_severity m ∈ ["unknown", "minor", "moderate", "major", "critical"] ∧
      (1 ≤ m → get_severity m ∈ ["minor", "moderate", "major", "critical"])) ∧
    (∀ o : Option ℤ,
      incident_severity o ∈ ["unknown", "minor", "moderate", "major", "critical"]) := by
  have hall : ∀ m : ℤ,
      get_severity m ∈ ["unknown", "minor", "moderate", "major", "critical"] := by
    intro m
    unfold get_severity
    split_ifs <;> decide
  refine ⟨fun m => ⟨hall m, fun h1 => ?_⟩, fun o => hall _⟩
  unfold get_severity
  split_ifs <;> decide

/-- Witness for C9 (amended): magnitude 4 is classified `critical`, among the
four claimed severities. -/
theorem C9_severity_amended_witness :
    (1 : ℤ) ≤ 4 ∧ get_severity 4 ∈ ["minor", "moderate", "major", "critical"] :=
  ⟨by decide, (C9_severity_amended.1 4).2 (by decide)⟩

/-- C5: against the region document of the specification — whose `bounds`
object carries the camelCase keys `minLat`, `maxLat`, `minLon`, `maxLon`, as
`RegionConfig.get_bounds` itself documents — `get_providers_for_bounds`
subscripts the snake_case key `min_lat` and so raises `KeyError` for every
query box and every choice of region coordinates, instead of returning the
providers of the overlapping regions. -/
theorem C5_providers_for_bounds_keyerror (a b c d : ℚ) (q : BoundingBox) :
    get_providers_for_bounds (fun _ => spec_region_bounds a b c d) q =
      .error "KeyError: min_lat" := rfl

end FloodWatch
